import Mathlib

/-!
Verification development for the ShopFlow storefront repository.

The repository is a Next.js storefront whose pages declare cache-lifecycle
parameters, fetch products from a remote API, filter and render them.  The
definitions below are a shallow embedding of the relevant repository code:
fetch outcomes become an explicit `FetchResult` argument, JavaScript numbers
used in query parsing become `JSNum` (a rational with NaN and infinities),
and the framework cache calls (`updateTag`, `revalidateTag`, `revalidatePath`)
become an explicit list of `CacheOp` effects.
-/

/-! ## Cache-lifecycle model (docs/cache.md) -/

/-- The three durations passed to `cacheLife({ stale, revalidate, expire })`,
in seconds, as in `cache-components/docs/cache.md`. -/
structure CacheLifeConfig where
  stale : Nat
  revalidate : Nat
  expire : Nat
deriving DecidableEq, Repr

/-- The three age-based cache states of the status table in
`cache-components/docs/cache.md`. -/
inductive CacheStatus where
  | fresh
  | stale
  | expired
deriving DecidableEq, Repr

/-- The status table of `cache-components/docs/cache.md`, read as a
classification of an entry's age: `Fresh` when `age < revalidate`,
`Stale` when `revalidate <= age < revalidate + stale`, `Expired` when
`age >= expire`; an age matching no row classifies to `none`. -/
def classify (cfg : CacheLifeConfig) (age : Nat) : Option CacheStatus :=
  if age < cfg.revalidate then some CacheStatus.fresh
  else if age < cfg.revalidate + cfg.stale then some CacheStatus.stale
  else if cfg.expire ≤ age then some CacheStatus.expired
  else none

/-- The `Fresh` row of the status table: `age < revalidate`. -/
def freshRow (cfg : CacheLifeConfig) (age : Nat) : Prop :=
  age < cfg.revalidate

/-- The `Stale` row of the status table:
`revalidate <= age < (revalidate + stale)`. -/
def staleRow (cfg : CacheLifeConfig) (age : Nat) : Prop :=
  cfg.revalidate ≤ age ∧ age < cfg.revalidate + cfg.stale

/-- The `Expired` row of the status table: `age >= expire`. -/
def expiredRow (cfg : CacheLifeConfig) (age : Nat) : Prop :=
  cfg.expire ≤ age

/-- The example configuration of `docs/cache.md`:
`cacheLife({ stale: 60, revalidate: 300, expire: 1800 })`. -/
def exampleCacheLife : CacheLifeConfig :=
  { stale := 60, revalidate := 300, expire := 1800 }

/-! ## Product data model (`@/types/product`, as consumed by the pages) -/

/-- The external read-only product record fetched from the remote API.
Prices, percentages and ratings are JSON numbers, embedded as rationals. -/
structure Product where
  id : Nat
  title : String
  description : String
  category : String
  brand : String
  price : ℚ
  discountPercentage : ℚ
  rating : ℚ
  stock : Nat
  thumbnail : String
  images : List String
deriving DecidableEq, Repr

/-- The list response of `GET /products`: the pages read only `.products`. -/
structure ProductsResponse where
  products : List Product
deriving DecidableEq, Repr

/-! ## JavaScript numbers and `parseFloat`

The catalog page compares `p.price >= parseFloat(minPrice)` and
`p.price <= parseFloat(maxPrice)`.  `parseFloat` can produce `NaN` (no
numeric prefix) or an infinity (an `Infinity` literal), and every ordered
comparison against `NaN` is false, so the parsed value is embedded as a
dedicated type rather than a plain rational. -/

/-- Result of JavaScript `parseFloat`: `NaN`, a signed infinity, or a
finite value (a rational, since the input is a decimal literal). -/
inductive JSNum where
  | nan
  | posInf
  | negInf
  | fin (q : ℚ)
deriving DecidableEq, Repr

/-- JavaScript `x >= y` for a finite `x` and a parsed `y`:
false whenever `y` is `NaN`. -/
def jsGe (x : ℚ) (y : JSNum) : Bool :=
  match y with
  | JSNum.nan => false
  | JSNum.posInf => false
  | JSNum.negInf => true
  | JSNum.fin q => decide (q ≤ x)

/-- JavaScript `x <= y` for a finite `x` and a parsed `y`:
false whenever `y` is `NaN`. -/
def jsLe (x : ℚ) (y : JSNum) : Bool :=
  match y with
  | JSNum.nan => false
  | JSNum.posInf => true
  | JSNum.negInf => false
  | JSNum.fin q => decide (x ≤ q)

/-- JavaScript whitespace skipped by `parseFloat`. -/
def jsWhitespace (c : Char) : Bool :=
  c = ' ' ∨ c = '\t' ∨ c = '\n' ∨ c = '\r' ∨ c = '\x0b' ∨ c = '\x0c'

/-- Digit test for `parseFloat`. -/
def digitChar (c : Char) : Bool :=
  '0' ≤ c ∧ c ≤ '9'

/-- Numeric value of a digit string, most significant first. -/
def digitsToNat (l : List Char) : Nat :=
  l.foldl (fun n c => 10 * n + (c.toNat - '0'.toNat)) 0

/-- Mantissa denoted by integer digits and fraction digits. -/
def mantissaVal (intPart fracPart : List Char) : ℚ :=
  (digitsToNat intPart : ℚ) + (digitsToNat fracPart : ℚ) / (10 : ℚ) ^ fracPart.length

/-- Exponent part of a decimal literal: consumed only when `e`/`E` is
followed by an optional sign and at least one digit, as `parseFloat` does. -/
def parseExponent (l : List Char) : Int :=
  match l with
  | 'e' :: rest => parseSignedDigits rest
  | 'E' :: rest => parseSignedDigits rest
  | _ => 0
where
  parseSignedDigits : List Char → Int
    | '+' :: rest => if (rest.takeWhile digitChar).isEmpty then 0
        else (digitsToNat (rest.takeWhile digitChar) : Int)
    | '-' :: rest => if (rest.takeWhile digitChar).isEmpty then 0
        else -(digitsToNat (rest.takeWhile digitChar) : Int)
    | rest => if (rest.takeWhile digitChar).isEmpty then 0
        else (digitsToNat (rest.takeWhile digitChar) : Int)

/-- Decimal literal after the optional sign: digits, an optional point with
further digits, and an optional exponent.  `NaN` when there is no digit at
all.  Mirrors the prefix-parsing of JavaScript `parseFloat`. -/
def parseDecimal (l : List Char) : JSNum :=
  let intPart := l.takeWhile digitChar
  let rest1 := l.dropWhile digitChar
  let fracPart := match rest1 with
    | '.' :: r => r.takeWhile digitChar
    | _ => []
  let rest2 := match rest1 with
    | '.' :: r => r.dropWhile digitChar
    | _ => rest1
  if intPart.isEmpty ∧ fracPart.isEmpty then JSNum.nan
  else JSNum.fin (mantissaVal intPart fracPart * (10 : ℚ) ^ parseExponent rest2)

/-- JavaScript `parseFloat`: skip whitespace, read an optional sign, then
either an `Infinity` literal or a decimal literal prefix; `NaN` when no
numeric prefix exists. -/
def parseFloat (s : String) : JSNum :=
  let l := s.data.dropWhile jsWhitespace
  match l with
  | '+' :: rest => parseUnsigned rest false
  | '-' :: rest => parseUnsigned rest true
  | rest => parseUnsigned rest false
where
  parseUnsigned (l : List Char) (neg : Bool) : JSNum :=
    if ('I' :: "nfinity".data).isPrefixOf l then
      if neg then JSNum.negInf else JSNum.posInf
    else
      match parseDecimal l with
      | JSNum.fin q => JSNum.fin (if neg then -q else q)
      | other => other

/-! ## Catalog page filters (`no-cache-components/src/app/products/page.tsx`)

`ProductsPage` destructures `category`, `search`, `minPrice`, `maxPrice`
from the search params and applies each filter only when its value is
truthy (present and non-empty). -/

/-- JavaScript substring test `hay.includes(sub)` on character lists. -/
def charsPrefixOf : List Char → List Char → Bool
  | [], _ => true
  | _ :: _, [] => false
  | a :: as, b :: bs => a = b ∧ charsPrefixOf as bs

/-- JavaScript substring test `hay.includes(sub)`. -/
def charsContain (sub : List Char) : List Char → Bool
  | [] => sub.isEmpty
  | c :: rest => charsPrefixOf sub (c :: rest) ∨ charsContain sub rest

/-- `hay.includes(sub)` on strings. -/
def strIncludes (hay sub : String) : Bool :=
  charsContain sub.data hay.data

/-- The four query parameters of the catalog page; `none` models an absent
parameter. -/
structure SearchParams where
  category : Option String
  search : Option String
  minPrice : Option String
  maxPrice : Option String
deriving DecidableEq, Repr

/-- `p.category.toLowerCase() === category.toLowerCase()`. -/
def categoryPred (c : String) (p : Product) : Bool :=
  p.category.toLower = c.toLower

/-- The search predicate of the catalog page: the lowercased search text
occurs in the lowercased title, description or brand. -/
def searchPred (s : String) (p : Product) : Bool :=
  let searchLower := s.toLower
  strIncludes p.title.toLower searchLower ∨
    strIncludes p.description.toLower searchLower ∨
    strIncludes p.brand.toLower searchLower

/-- `p.price >= parseFloat(minPrice)`. -/
def minPricePred (m : String) (p : Product) : Bool :=
  jsGe p.price (parseFloat m)

/-- `p.price <= parseFloat(maxPrice)`. -/
def maxPricePred (m : String) (p : Product) : Bool :=
  jsLe p.price (parseFloat m)

/-- One conditional filtering step `if (v) { filteredProducts =
filteredProducts.filter(pred v) }`: an absent or empty (falsy) value
leaves the list unchanged. -/
def filterStep (v : Option String) (pred : String → Product → Bool)
    (xs : List Product) : List Product :=
  match v with
  | none => xs
  | some s => if s.isEmpty then xs else xs.filter (pred s)

/-- The server-side filtering block of `ProductsPage`: category, then
search, then min price, then max price, applied in source order. -/
def productsPageFilter (ps : SearchParams) (allProducts : List Product) :
    List Product :=
  filterStep ps.maxPrice maxPricePred
    (filterStep ps.minPrice minPricePred
      (filterStep ps.search searchPred
        (filterStep ps.category categoryPred allProducts)))

/-! ## Upstream fetch embedding

Each data-fetch function performs one `fetch` inside `try { ... } catch`.
The outcome of the `fetch` and of `res.json()` is made an explicit
argument: a network error (the `fetch` call throws), or a response with a
status code whose body either parses to a typed value or fails to parse. -/

/-- Outcome of one upstream `fetch`: a thrown network error, or a response
whose JSON body parses as `α` or throws. -/
inductive FetchResult (α : Type) where
  | netError (msg : String)
  | response (status : Nat) (body : Except String α)
deriving Repr

/-- `res.ok`: status in the 200–299 range. -/
def resOk (status : Nat) : Bool :=
  200 ≤ status ∧ status < 300

/-- A fetch outcome that is a failure: network error, non-OK status, or
malformed (unparsable) body. -/
def fetchFailed {α : Type} : FetchResult α → Bool
  | FetchResult.netError _ => true
  | FetchResult.response status body =>
    !resOk status || (match body with
      | Except.error _ => true
      | Except.ok _ => false)

/-- Body of `getFeaturedProducts` in `src/app/page.tsx` up to the `catch`:
throws on a network error, on `!res.ok`, and on a malformed body, and
otherwise yields `data.products`. -/
def getFeaturedProductsTry (r : FetchResult ProductsResponse) :
    Except String (List Product) :=
  match r with
  | FetchResult.netError m => Except.error m
  | FetchResult.response status body =>
    if resOk status then
      match body with
      | Except.ok data => Except.ok data.products
      | Except.error e => Except.error e
    else Except.error "Failed to fetch products"

/-- `getFeaturedProducts` (`src/app/page.tsx`): the `catch` turns every
failure into the empty list. -/
def getFeaturedProducts (r : FetchResult ProductsResponse) : List Product :=
  match getFeaturedProductsTry r with
  | Except.ok l => l
  | Except.error _ => []

/-- Body of `getAllProducts` in
`no-cache-components/src/app/products/page.tsx` up to the `catch`. -/
def getAllProductsTry (r : FetchResult ProductsResponse) :
    Except String (List Product) :=
  match r with
  | FetchResult.netError m => Except.error m
  | FetchResult.response status body =>
    if resOk status then
      match body with
      | Except.ok data => Except.ok data.products
      | Except.error e => Except.error e
    else Except.error "Failed to fetch products"

/-- `getAllProducts`: the `catch` turns every failure into the empty
list. -/
def getAllProducts (r : FetchResult ProductsResponse) : List Product :=
  match getAllProductsTry r with
  | Except.ok l => l
  | Except.error _ => []

/-- Parsed JSON shape of `GET /products/categories` as `getCategories`
inspects it: an array of strings, an array of objects carrying a `slug`
string (possibly empty when absent), or anything else. -/
inductive CatsData where
  | strs (l : List String)
  | objs (slugs : List String)
  | other
deriving DecidableEq, Repr

/-- The shape dispatch of `getCategories`: a non-empty string array is
returned as is; a non-empty object array whose first `slug` is truthy is
mapped to its slugs; every other shape yields `[]`. -/
def catsFromData : CatsData → List String
  | CatsData.strs l => if l.isEmpty then [] else l
  | CatsData.objs slugs =>
    match slugs with
    | [] => []
    | first :: _ => if first.isEmpty then [] else slugs
  | CatsData.other => []

/-- Body of `getCategories` in
`no-cache-components/src/app/products/page.tsx` up to the `catch`. -/
def getCategoriesTry (r : FetchResult CatsData) : Except String (List String) :=
  match r with
  | FetchResult.netError m => Except.error m
  | FetchResult.response status body =>
    if resOk status then
      match body with
      | Except.ok data => Except.ok (catsFromData data)
      | Except.error e => Except.error e
    else Except.error "Failed to fetch categories"

/-- `getCategories`: the `catch` turns every failure into the empty
list. -/
def getCategories (r : FetchResult CatsData) : List String :=
  match getCategoriesTry r with
  | Except.ok l => l
  | Except.error _ => []

/-! ## Product detail page
(`cache-components/src/app/products/[id]/page.tsx`) -/

/-- Body of `getProduct` up to the `catch`: a 404 response returns `null`
without throwing; any other non-OK status throws; a network error or a
malformed body throws. -/
def getProductTry (r : FetchResult Product) : Except String (Option Product) :=
  match r with
  | FetchResult.netError m => Except.error m
  | FetchResult.response status body =>
    if resOk status then
      match body with
      | Except.ok p => Except.ok (some p)
      | Except.error e => Except.error e
    else if status = 404 then Except.ok none
    else Except.error "Failed to fetch product"

/-- `getProduct`: the `catch` maps every thrown failure to `null`. -/
def getProduct (r : FetchResult Product) : Option Product :=
  match getProductTry r with
  | Except.ok v => v
  | Except.error _ => none

/-- `getProduct` together with whether its `catch` block ran (and logged
`console.error`): the explicit 404 branch returns `null` without entering
the `catch`, every other failure enters it. -/
def getProductLogged (r : FetchResult Product) : Option Product × Bool :=
  match getProductTry r with
  | Except.ok v => (v, false)
  | Except.error _ => (none, true)

/-- Default value of the `limit` parameter of `getRelatedProducts`. -/
def relatedLimitDefault : Nat := 4

/-- `getRelatedProducts`: on success, the category response's products
with the current product removed and truncated to `limit`; on any failure
the `catch` yields `[]`. -/
def getRelatedProducts (r : FetchResult ProductsResponse) (currentId : Nat)
    (limit : Nat) : List Product :=
  match r with
  | FetchResult.netError _ => []
  | FetchResult.response status body =>
    if resOk status then
      match body with
      | Except.ok data =>
        ((data.products.filter (fun p => p.id ≠ currentId)).take limit)
      | Except.error _ => []
    else []

/-- What the product detail page resolves to: the not-found fallback, or a
rendered product with its related list. -/
inductive DetailPageOutcome where
  | notFoundPage
  | renderPage (p : Product) (related : List Product)
deriving DecidableEq, Repr

/-- `ProductDetailPage`: a `null` product triggers `notFound()`; otherwise
the product is rendered with its related products (fetched with the
default limit). -/
def renderProductDetail (r : FetchResult Product)
    (rel : FetchResult ProductsResponse) : DetailPageOutcome :=
  match getProduct r with
  | none => DetailPageOutcome.notFoundPage
  | some p =>
    DetailPageOutcome.renderPage p (getRelatedProducts rel p.id relatedLimitDefault)

/-! ## Discount display
(`products/[id]/page.tsx` price section and the home/catalog cards) -/

/-- `discountedPrice` in `ProductDetailPage`:
`discountPercentage > 0 ? price / (1 - discountPercentage / 100) : null`.
(Despite its name it is the pre-discount original price.) -/
def discountedPrice (p : Product) : Option ℚ :=
  if 0 < p.discountPercentage then
    some (p.price / (1 - p.discountPercentage / 100))
  else none

/-- The original-price span of the detail page is guarded by
`{discountedPrice && ...}`: a `null` — or numerically falsy (zero) —
value renders no original price. -/
def detailOriginalPriceDisplay (p : Product) : Option ℚ :=
  match discountedPrice p with
  | none => none
  | some v => if v = 0 then none else some v

/-- The savings span of the detail page is guarded by
`{discountPercentage > 0 && ...}` and shows
`discountedPrice! - price`. -/
def detailSavingsDisplay (p : Product) : Option ℚ :=
  if 0 < p.discountPercentage then
    match discountedPrice p with
    | some v => some (v - p.price)
    | none => none
  else none

/-- The original-price span of the home page card (and the catalog card)
is guarded by `{discountPercentage > 0 && ...}` and shows
`price / (1 - discountPercentage / 100)` directly. -/
def homeOriginalPriceDisplay (p : Product) : Option ℚ :=
  if 0 < p.discountPercentage then
    some (p.price / (1 - p.discountPercentage / 100))
  else none

/-! ## Framework cache state machine and the repository's triggers

The age-based state machine itself is owned by the framework runtime, not
by this repository; only its configuration and its invalidation triggers
(`revalidateBargains`, the `POST /api/revalidate` handler) live in the
source.  The entry model below is therefore modelled from the spec. -/

/-- Modelled from the spec: a framework cache entry (the framework's cache
store is not part of this repository).  It carries its `cacheLife`
configuration, its current age in seconds, whether an on-demand
invalidation (`updateTag` / `revalidatePath`) has expired it, and whether
an on-demand `revalidateTag` has marked it stale. -/
structure CacheEntry where
  cfg : CacheLifeConfig
  age : Nat
  invalidated : Bool
  markedStale : Bool
deriving DecidableEq, Repr

/-- Modelled from the spec: the state of an entry per §4.1 — an on-demand
invalidation makes it expired regardless of age, an on-demand stale mark
makes it stale, and otherwise the age-based thresholds apply. -/
def entryStatus (e : CacheEntry) : CacheStatus :=
  if e.invalidated then CacheStatus.expired
  else if e.markedStale then CacheStatus.stale
  else if e.age < e.cfg.revalidate then CacheStatus.fresh
  else if e.age < e.cfg.revalidate + e.cfg.stale then CacheStatus.stale
  else CacheStatus.expired

/-- Modelled from the spec: on-demand invalidation of one entry
(`updateTag` / `revalidatePath`), expiring it regardless of age. -/
def invalidateEntry (e : CacheEntry) : CacheEntry :=
  { e with invalidated := true }

/-- Modelled from the spec: on-demand stale marking of one entry
(`revalidateTag` with a profile). -/
def markStaleEntry (e : CacheEntry) : CacheEntry :=
  { e with markedStale := true }

/-- Modelled from the spec: how the next fetch of an entry behaves —
a fresh entry is served from cache, a stale entry is served from cache
while recomputing in the background, an expired entry is discarded and
recomputed before responding. -/
inductive FetchBehavior where
  | serveCached
  | serveCachedAndRevalidate
  | recompute
deriving DecidableEq, Repr

/-- Modelled from the spec: the behavior of the next fetch, determined by
the entry's state. -/
def nextFetch (e : CacheEntry) : FetchBehavior :=
  match entryStatus e with
  | CacheStatus.fresh => FetchBehavior.serveCached
  | CacheStatus.stale => FetchBehavior.serveCachedAndRevalidate
  | CacheStatus.expired => FetchBehavior.recompute

/-- A call into the framework cache API, recorded as an explicit effect. -/
inductive CacheOp where
  | updateTagOp (tag : String)
  | revalidateTagOp (tag : String) (profile : String)
  | revalidatePathOp (path : String)
deriving DecidableEq, Repr

/-- `revalidateBargains` (`bargains/actions.ts`): `updateTag('bargains')`
when `expire` is true, `revalidateTag('bargains', 'max')` otherwise. -/
def revalidateBargains (expire : Bool) : List CacheOp :=
  if expire then [CacheOp.updateTagOp "bargains"]
  else [CacheOp.revalidateTagOp "bargains" "max"]

/-- A framework cache store keyed by tag or path, modelled from the spec. -/
abbrev CacheStore : Type := List (String × CacheEntry)

/-- Modelled from the spec: applying one cache API call to the store —
`updateTag` and `revalidatePath` expire every entry under the key,
`revalidateTag` marks every entry under the tag stale. -/
def applyOp (op : CacheOp) (store : CacheStore) : CacheStore :=
  match op with
  | CacheOp.updateTagOp t =>
    store.map (fun kv => if kv.1 = t then (kv.1, invalidateEntry kv.2) else kv)
  | CacheOp.revalidateTagOp t _ =>
    store.map (fun kv => if kv.1 = t then (kv.1, markStaleEntry kv.2) else kv)
  | CacheOp.revalidatePathOp pa =>
    store.map (fun kv => if kv.1 = pa then (kv.1, invalidateEntry kv.2) else kv)

/-! ## Cache-invalidation endpoint (`POST` route handler) -/

/-- The JSON body of a `POST` to the revalidation endpoint, as the handler
destructures it: an optional `path` field. -/
structure InvalidateBody where
  path : Option String
deriving DecidableEq, Repr

/-- The JSON responses the handler produces. -/
structure ApiResponse where
  status : Nat
  revalidated : Option Bool
  path : Option String
  message : Option String
  errorText : Option String
  now : Option Nat
deriving DecidableEq, Repr

/-- The `POST` handler of the revalidation route: a body that fails to
parse (or any other throw) yields 500; a falsy `path` (absent or empty)
yields 400 with `Path is required` and performs no cache call; otherwise
`revalidatePath(path)` is called and a 200 acknowledgement echoes the
path. -/
def handlePOST (req : Except String InvalidateBody) (nowMs : Nat) :
    ApiResponse × List CacheOp :=
  match req with
  | Except.error e =>
    ({ status := 500, revalidated := none, path := none,
       message := some "Error revalidating", errorText := some e,
       now := none }, [])
  | Except.ok body =>
    match body.path with
    | none =>
      ({ status := 400, revalidated := none, path := none,
         message := some "Path is required", errorText := none,
         now := none }, [])
    | some p =>
      if p.isEmpty then
        ({ status := 400, revalidated := none, path := none,
           message := some "Path is required", errorText := none,
           now := none }, [])
      else
        ({ status := 200, revalidated := some true, path := some p,
           message := none, errorText := none, now := some nowMs },
         [CacheOp.revalidatePathOp p])

/-! ## Sample data used by concrete witnesses -/

/-- A concrete product used to evaluate the definitions. -/
def sampleProduct : Product :=
  { id := 1, title := "Essence Mascara", description := "A popular mascara"
  , category := "beauty", brand := "Essence", price := 10
  , discountPercentage := 20, rating := 4, stock := 5
  , thumbnail := "thumb.png", images := ["a.png"] }

/-- A second concrete product, in another category and price band. -/
def sampleProduct2 : Product :=
  { id := 2, title := "Red Lipstick", description := "A bold red lipstick"
  , category := "beauty", brand := "Chic", price := 13
  , discountPercentage := 0, rating := 3, stock := 0
  , thumbnail := "thumb2.png", images := [] }

/-- A concrete product with a zero price and a positive discount. -/
def zeroPriceProduct : Product :=
  { id := 3, title := "Freebie", description := "A free sample"
  , category := "beauty", brand := "Essence", price := 0
  , discountPercentage := 50, rating := 5, stock := 1
  , thumbnail := "thumb3.png", images := [] }

/-! ## Shared helper lemmas -/

/-- The predicate a conditional filtering step keeps: everything when the
parameter is absent or empty, the step's predicate otherwise. -/
def stepKeep (v : Option String) (pred : String → Product → Bool)
    (p : Product) : Bool :=
  match v with
  | none => true
  | some s => if s.isEmpty then true else pred s p

theorem mem_filterStep (v : Option String)
    (pred : String → Product → Bool) (xs : List Product) (p : Product) :
    p ∈ filterStep v pred xs ↔ p ∈ xs ∧ stepKeep v pred p = true := by
  cases v with
  | none => simp [filterStep, stepKeep]
  | some s =>
    by_cases h : s.isEmpty <;>
      simp [filterStep, stepKeep, h, List.mem_filter]

theorem filterStep_nil (v : Option String)
    (pred : String → Product → Bool) : filterStep v pred [] = [] := by
  cases v with
  | none => rfl
  | some s => by_cases h : s.isEmpty <;> simp [filterStep, h]

/-! ## Claim theorems -/

/-- C1 (counterexample): under the status table of `docs/cache.md`, the
example configuration `(stale 60, revalidate 300, expire 1800)` satisfies
`revalidate < expire`, yet age 400 matches none of the three rows — it is
neither Fresh, nor Stale, nor Expired — so it is false that every age
falls into exactly one of the three states. -/
theorem cacheClassify_gap_counterexample :
    exampleCacheLife.revalidate < exampleCacheLife.expire ∧
    classify exampleCacheLife 400 = none ∧
    ¬ freshRow exampleCacheLife 400 ∧
    ¬ staleRow exampleCacheLife 400 ∧
    ¬ expiredRow exampleCacheLife 400 := by
  unfold freshRow staleRow expiredRow exampleCacheLife
  refine ⟨by decide, by decide, by decide, by decide, by decide⟩

/-- C1 (amended): for a configuration with `revalidate < expire` and
`revalidate + stale ≤ expire`, the classification is Fresh exactly when
`age < revalidate`, Stale exactly when
`revalidate ≤ age < revalidate + stale`, and Expired exactly when
`age ≥ expire`; age `revalidate` is Stale (when the stale window is
non-empty) and age `expire` is Expired; but ages in
`[revalidate + stale, expire)` fall into none of the three states, so the
states are mutually exclusive without covering every age. -/
theorem cacheClassify_thresholds (cfg : CacheLifeConfig) (age : Nat)
    (hre : cfg.revalidate < cfg.expire)
    (hwin : cfg.revalidate + cfg.stale ≤ cfg.expire) :
    (classify cfg age = some CacheStatus.fresh ↔ freshRow cfg age) ∧
    (classify cfg age = some CacheStatus.stale ↔ staleRow cfg age) ∧
    (classify cfg age = some CacheStatus.expired ↔ expiredRow cfg age) ∧
    (0 < cfg.stale → classify cfg cfg.revalidate = some CacheStatus.stale) ∧
    classify cfg cfg.expire = some CacheStatus.expired ∧
    (cfg.revalidate + cfg.stale ≤ age → age < cfg.expire →
      classify cfg age = none) := by
  unfold classify freshRow staleRow expiredRow
  refine ⟨?_, ?_, ?_, ?_, ?_, ?_⟩ <;>
    · repeat' split
      all_goals simp_all
      all_goals omega

/-- C1 (witness for the amended theorem). -/
theorem cacheClassify_thresholds_witness :
    classify ⟨60, 300, 360⟩ 5 = some CacheStatus.fresh ↔
      freshRow ⟨60, 300, 360⟩ 5 :=
  (cacheClassify_thresholds ⟨60, 300, 360⟩ 5 (by decide) (by decide)).1

/-- C2: membership in the sequentially filtered catalog list is exactly
joint membership in the four individually filtered lists, i.e. the four
query filters compose as the intersection of their individual results on
the full fetched list. -/
theorem productsPageFilter_is_intersection (ps : SearchParams)
    (xs : List Product) (p : Product) :
    p ∈ productsPageFilter ps xs ↔
      (p ∈ filterStep ps.category categoryPred xs ∧
       p ∈ filterStep ps.search searchPred xs ∧
       p ∈ filterStep ps.minPrice minPricePred xs ∧
       p ∈ filterStep ps.maxPrice maxPricePred xs) := by
  simp only [productsPageFilter, mem_filterStep]
  tauto

/-- C3: a 404 from the upstream API makes `getProduct` return `null`
without entering the `catch` (no error logged), and the page then renders
the not-found state; every other failure (network error, other non-OK
status, malformed body) also yields `null` but does run the `catch`,
distinguishing it from the missing-product case; and the page only ever
resolves to the not-found state or a rendered product — never a thrown
error. -/
theorem getProduct_missing_is_notFound :
    (∀ body : Except String Product,
      getProductLogged (FetchResult.response 404 body) = (none, false)) ∧
    (∀ (body : Except String Product) (rel : FetchResult ProductsResponse),
      renderProductDetail (FetchResult.response 404 body) rel =
        DetailPageOutcome.notFoundPage) ∧
    (∀ m : String, getProductLogged (FetchResult.netError m) = (none, true)) ∧
    (∀ (status : Nat) (body : Except String Product),
      resOk status = false → status ≠ 404 →
        getProductLogged (FetchResult.response status body) = (none, true)) ∧
    (∀ (status : Nat) (e : String), resOk status = true →
      getProductLogged (FetchResult.response status (Except.error e)) =
        (none, true)) ∧
    (∀ (r : FetchResult Product) (rel : FetchResult ProductsResponse),
      renderProductDetail r rel = DetailPageOutcome.notFoundPage ∨
      ∃ p : Product, renderProductDetail r rel =
        DetailPageOutcome.renderPage p
          (getRelatedProducts rel p.id relatedLimitDefault)) := by
  refine ⟨?_, ?_, ?_, ?_, ?_, ?_⟩
  · intro body
    cases body <;> simp [getProductLogged, getProductTry, resOk]
  · intro body rel
    cases body <;>
      simp [renderProductDetail, getProduct, getProductTry, resOk]
  · intro m
    simp [getProductLogged, getProductTry]
  · intro status body hok h404
    cases body <;> simp [getProductLogged, getProductTry, hok, h404]
  · intro status e hok
    simp [getProductLogged, getProductTry, hok]
  · intro r rel
    cases h : getProduct r with
    | none => left; simp [renderProductDetail, h]
    | some p => right; exact ⟨p, by simp [renderProductDetail, h]⟩

/-- C3 (witness): a concrete 500 response is a non-404 failure and is
mapped to `null` with the `catch` executed. -/
theorem getProduct_missing_is_notFound_witness :
    getProductLogged (FetchResult.response 500 (Except.ok sampleProduct)) =
      (none, true) :=
  getProduct_missing_is_notFound.2.2.2.1 500 (Except.ok sampleProduct)
    (by decide) (by decide)

/-- C4 (counterexample): the detail page guards the original-price span
with the JavaScript truthiness of the computed value, so a product with
price 0 and discount 50% — a positive discount — displays no original
price, although the claim requires the original price `P / (1 - D/100)`
to be displayed for every positive discount. -/
theorem discountDisplay_zeroPrice_counterexample :
    0 < zeroPriceProduct.discountPercentage ∧
    detailOriginalPriceDisplay zeroPriceProduct = none := by
  constructor
  · norm_num [zeroPriceProduct]
  · norm_num [detailOriginalPriceDisplay, discountedPrice, zeroPriceProduct]

/-- C4 (amended): for every product with positive price and discount
`0 < D < 100`, the detail page and the home/catalog cards display the
original price `P / (1 - D/100)` and the detail page displays savings
equal to that original price minus `P`; for `D = 0` no original price and
no savings are displayed. -/
theorem discountDisplay_spec (p : Product) :
    (0 < p.discountPercentage → p.discountPercentage < 100 → 0 < p.price →
      detailOriginalPriceDisplay p =
        some (p.price / (1 - p.discountPercentage / 100)) ∧
      homeOriginalPriceDisplay p =
        some (p.price / (1 - p.discountPercentage / 100)) ∧
      detailSavingsDisplay p =
        some (p.price / (1 - p.discountPercentage / 100) - p.price)) ∧
    (p.discountPercentage = 0 →
      detailOriginalPriceDisplay p = none ∧
      homeOriginalPriceDisplay p = none ∧
      detailSavingsDisplay p = none) := by
  constructor
  · intro hD hD100 hP
    have hfrac : p.discountPercentage / 100 < 1 :=
      (div_lt_one (by norm_num : (0 : ℚ) < 100)).mpr hD100
    have hden : 0 < 1 - p.discountPercentage / 100 := by linarith
    have hv : 0 < p.price / (1 - p.discountPercentage / 100) :=
      div_pos hP hden
    refine ⟨?_, ?_, ?_⟩
    · simp [detailOriginalPriceDisplay, discountedPrice, hD, hv.ne.symm]
    · simp [homeOriginalPriceDisplay, hD]
    · simp [detailSavingsDisplay, discountedPrice, hD]
  · intro hD
    have hno : ¬ 0 < p.discountPercentage := by
      rw [hD]
      exact lt_irrefl 0
    refine ⟨?_, ?_, ?_⟩
    · simp [detailOriginalPriceDisplay, discountedPrice, hno]
    · simp [homeOriginalPriceDisplay, hno]
    · simp [detailSavingsDisplay, hno]

/-- C4 (witness): the concrete sample product (price 10, discount 20%)
displays original price 12.5 and savings 2.5. -/
theorem discountDisplay_spec_witness :
    detailOriginalPriceDisplay sampleProduct =
      some (sampleProduct.price / (1 - sampleProduct.discountPercentage / 100)) ∧
    homeOriginalPriceDisplay sampleProduct =
      some (sampleProduct.price / (1 - sampleProduct.discountPercentage / 100)) ∧
    detailSavingsDisplay sampleProduct =
      some (sampleProduct.price / (1 - sampleProduct.discountPercentage / 100)
        - sampleProduct.price) :=
  (discountDisplay_spec sampleProduct).1
    (by norm_num [sampleProduct]) (by norm_num [sampleProduct])
    (by norm_num [sampleProduct])

/-- C5: on-demand invalidation (an `updateTag`, as issued by
`revalidateBargains(true)`, or a `revalidatePath`, as issued by the POST
handler) moves a Fresh or Stale entry directly to Expired, whatever its
age, and the next fetch of an expired entry bypasses the cached value and
recomputes; in the tag/path-keyed store, every entry under the invalidated
key is replaced by its invalidated (expired) version. -/
theorem onDemandInvalidation_expires :
    (∀ e : CacheEntry,
      entryStatus e = CacheStatus.fresh ∨ entryStatus e = CacheStatus.stale →
        entryStatus (invalidateEntry e) = CacheStatus.expired ∧
        nextFetch (invalidateEntry e) = FetchBehavior.recompute) ∧
    (∀ (t : String) (store : CacheStore) (e : CacheEntry),
      (t, e) ∈ store →
        (t, invalidateEntry e) ∈ applyOp (CacheOp.updateTagOp t) store) ∧
    (∀ (pa : String) (store : CacheStore) (e : CacheEntry),
      (pa, e) ∈ store →
        (pa, invalidateEntry e) ∈ applyOp (CacheOp.revalidatePathOp pa) store) := by
  refine ⟨?_, ?_, ?_⟩
  · intro e _
    constructor
    · simp [entryStatus, invalidateEntry]
    · simp [nextFetch, entryStatus, invalidateEntry]
  · intro t store e hmem
    have := List.mem_map_of_mem
      (fun kv : String × CacheEntry =>
        if kv.1 = t then (kv.1, invalidateEntry kv.2) else kv) hmem
    simpa [applyOp] using this
  · intro pa store e hmem
    have := List.mem_map_of_mem
      (fun kv : String × CacheEntry =>
        if kv.1 = pa then (kv.1, invalidateEntry kv.2) else kv) hmem
    simpa [applyOp] using this

/-- C5 (witness): a concrete fresh entry under the example configuration
is expired by invalidation and its next fetch recomputes. -/
theorem onDemandInvalidation_expires_witness :
    entryStatus (invalidateEntry ⟨exampleCacheLife, 10, false, false⟩) =
      CacheStatus.expired ∧
    nextFetch (invalidateEntry ⟨exampleCacheLife, 10, false, false⟩) =
      FetchBehavior.recompute :=
  onDemandInvalidation_expires.1 ⟨exampleCacheLife, 10, false, false⟩
    (Or.inl (by decide))

/-- C6: every failing fetch outcome — a network error, a non-OK response,
or a malformed body — is caught inside `getFeaturedProducts`,
`getAllProducts` and `getCategories`, each of which then returns the empty
list. -/
theorem fetchFailures_degrade_to_empty
    (r₁ r₂ : FetchResult ProductsResponse) (r₃ : FetchResult CatsData) :
    (fetchFailed r₁ = true → getFeaturedProducts r₁ = []) ∧
    (fetchFailed r₂ = true → getAllProducts r₂ = []) ∧
    (fetchFailed r₃ = true → getCategories r₃ = []) := by
  refine ⟨?_, ?_, ?_⟩
  · intro h
    cases r₁ with
    | netError m => simp [getFeaturedProducts, getFeaturedProductsTry]
    | response status body =>
      cases body with
      | ok d =>
        simp [fetchFailed] at h
        simp [getFeaturedProducts, getFeaturedProductsTry, h]
      | error e =>
        by_cases hok : resOk status = true <;>
          simp [getFeaturedProducts, getFeaturedProductsTry, hok]
  · intro h
    cases r₂ with
    | netError m => simp [getAllProducts, getAllProductsTry]
    | response status body =>
      cases body with
      | ok d =>
        simp [fetchFailed] at h
        simp [getAllProducts, getAllProductsTry, h]
      | error e =>
        by_cases hok : resOk status = true <;>
          simp [getAllProducts, getAllProductsTry, hok]
  · intro h
    cases r₃ with
    | netError m => simp [getCategories, getCategoriesTry]
    | response status body =>
      cases body with
      | ok d =>
        simp [fetchFailed] at h
        simp [getCategories, getCategoriesTry, h]
      | error e =>
        by_cases hok : resOk status = true <;>
          simp [getCategories, getCategoriesTry, hok]

/-- C6 (witness): concrete failures — a thrown network error, a 500
response, and a response whose body fails to parse — all degrade to the
empty list. -/
theorem fetchFailures_degrade_to_empty_witness :
    getFeaturedProducts (FetchResult.netError "fetch failed") = [] ∧
    getAllProducts (FetchResult.response 500 (Except.ok ⟨[sampleProduct]⟩)) = [] ∧
    getCategories (FetchResult.response 200 (Except.error "bad json")) = [] :=
  ⟨(fetchFailures_degrade_to_empty (FetchResult.netError "fetch failed")
      (FetchResult.response 500 (Except.ok ⟨[sampleProduct]⟩))
      (FetchResult.response 200 (Except.error "bad json"))).1 (by decide),
   (fetchFailures_degrade_to_empty (FetchResult.netError "fetch failed")
      (FetchResult.response 500 (Except.ok ⟨[sampleProduct]⟩))
      (FetchResult.response 200 (Except.error "bad json"))).2.1 (by decide),
   (fetchFailures_degrade_to_empty (FetchResult.netError "fetch failed")
      (FetchResult.response 500 (Except.ok ⟨[sampleProduct]⟩))
      (FetchResult.response 200 (Except.error "bad json"))).2.2 (by decide)⟩

/-- C7: `revalidateBargains` performs exactly one cache operation, always
on the tag `bargains`: `updateTag('bargains')` when the expire flag is
true — which expires the tagged entry immediately — and
`revalidateTag('bargains', 'max')` when it is false — which marks the
tagged entry stale for background revalidation. -/
theorem revalidateBargains_one_op (b : Bool) :
    (revalidateBargains b).length = 1 ∧
    (b = true → revalidateBargains b = [CacheOp.updateTagOp "bargains"]) ∧
    (b = false →
      revalidateBargains b = [CacheOp.revalidateTagOp "bargains" "max"]) ∧
    (∀ e : CacheEntry,
      entryStatus (invalidateEntry e) = CacheStatus.expired) ∧
    (∀ e : CacheEntry, e.invalidated = false →
      entryStatus (markStaleEntry e) = CacheStatus.stale) := by
  refine ⟨?_, ?_, ?_, ?_, ?_⟩
  · cases b <;> simp [revalidateBargains]
  · intro hb
    simp [revalidateBargains, hb]
  · intro hb
    simp [revalidateBargains, hb]
  · intro e
    simp [entryStatus, invalidateEntry]
  · intro e he
    simp [entryStatus, markStaleEntry, he]

/-- C7 (witness): both flag values, concretely. -/
theorem revalidateBargains_one_op_witness :
    revalidateBargains true = [CacheOp.updateTagOp "bargains"] ∧
    revalidateBargains false = [CacheOp.revalidateTagOp "bargains" "max"] :=
  ⟨(revalidateBargains_one_op true).2.1 rfl,
   (revalidateBargains_one_op false).2.2.1 rfl⟩

/-- C8 (counterexample): a JSON body carrying the empty-string path does
not lack a path, yet the handler answers 400 and performs no
revalidation — the handler treats a falsy path like a missing one,
contradicting the claim's `otherwise revalidatePath is invoked and the
response has status 200`. -/
theorem handlePOST_emptyPath_counterexample :
    (InvalidateBody.mk (some "")).path ≠ none ∧
    (handlePOST (Except.ok (InvalidateBody.mk (some ""))) 0).1.status = 400 ∧
    (handlePOST (Except.ok (InvalidateBody.mk (some ""))) 0).2 = [] := by
  refine ⟨by decide, by decide, by decide⟩

/-- C8 (amended): if the JSON body lacks a path or carries an empty one,
the response has status 400 with the message `Path is required` and no
revalidation is performed; for a non-empty path, `revalidatePath` is
invoked on exactly that path and the response has status 200 with
`revalidated = true`, echoing the path; a throw while handling (e.g. an
unparsable body) yields status 500 with an error message. -/
theorem handlePOST_spec (nowMs : Nat) :
    (∀ e : String, handlePOST (Except.error e) nowMs =
      ({ status := 500, revalidated := none, path := none,
         message := some "Error revalidating", errorText := some e,
         now := none }, [])) ∧
    (handlePOST (Except.ok (InvalidateBody.mk none)) nowMs =
      ({ status := 400, revalidated := none, path := none,
         message := some "Path is required", errorText := none,
         now := none }, [])) ∧
    (∀ p : String, p.isEmpty = true →
      handlePOST (Except.ok (InvalidateBody.mk (some p))) nowMs =
        ({ status := 400, revalidated := none, path := none,
           message := some "Path is required", errorText := none,
           now := none }, [])) ∧
    (∀ p : String, p.isEmpty = false →
      handlePOST (Except.ok (InvalidateBody.mk (some p))) nowMs =
        ({ status := 200, revalidated := some true, path := some p,
           message := none, errorText := none, now := some nowMs },
         [CacheOp.revalidatePathOp p])) := by
  refine ⟨?_, ?_, ?_, ?_⟩
  · intro e
    rfl
  · rfl
  · intro p hp
    simp [handlePOST, hp]
  · intro p hp
    simp [handlePOST, hp]

/-- C8 (witness): a concrete request with path `/bargains` is
acknowledged with 200 and triggers exactly one `revalidatePath`. -/
theorem handlePOST_spec_witness :
    handlePOST (Except.ok (InvalidateBody.mk (some "/bargains"))) 17 =
      ({ status := 200, revalidated := some true, path := some "/bargains",
         message := none, errorText := none, now := some 17 },
       [CacheOp.revalidatePathOp "/bargains"]) :=
  (handlePOST_spec 17).2.2.2 "/bargains" (by decide)

/-- C9: whatever the upstream category response, the current product id
and the limit, `getRelatedProducts` never returns a product whose id
equals the current one, returns at most `limit` products, and the limit
parameter defaults to 4. -/
theorem getRelatedProducts_spec (r : FetchResult ProductsResponse)
    (cid lim : Nat) :
    (∀ p : Product, p ∈ getRelatedProducts r cid lim → p.id ≠ cid) ∧
    (getRelatedProducts r cid lim).length ≤ lim ∧
    relatedLimitDefault = 4 := by
  refine ⟨?_, ?_, rfl⟩
  · intro p hp
    cases r with
    | netError m => simp [getRelatedProducts] at hp
    | response status body =>
      cases body with
      | ok d =>
        by_cases hok : resOk status = true
        · simp only [getRelatedProducts, hok, if_true] at hp
          have hmem := List.mem_of_mem_take hp
          exact of_decide_eq_true (List.mem_filter.mp hmem).2
        · simp [getRelatedProducts, hok] at hp
      | error e =>
        by_cases hok : resOk status = true <;>
          simp [getRelatedProducts, hok] at hp
  · cases r with
    | netError m => simp [getRelatedProducts]
    | response status body =>
      cases body with
      | ok d =>
        by_cases hok : resOk status = true
        · simp only [getRelatedProducts, hok, if_true]
          exact List.length_take_le lim _
        · simp [getRelatedProducts, hok]
      | error e =>
        by_cases hok : resOk status = true <;>
          simp [getRelatedProducts, hok]

/-- C9 (witness): with a concrete category response containing the current
product (id 2) and another product, the current product is excluded and
the result stays within the default limit. -/
theorem getRelatedProducts_spec_witness :
    sampleProduct.id ≠ 2 ∧
    (getRelatedProducts
      (FetchResult.response 200 (Except.ok ⟨[sampleProduct, sampleProduct2]⟩))
      2 4).length ≤ 4 :=
  ⟨(getRelatedProducts_spec
      (FetchResult.response 200 (Except.ok ⟨[sampleProduct, sampleProduct2]⟩))
      2 4).1 sampleProduct (by decide),
   (getRelatedProducts_spec
      (FetchResult.response 200 (Except.ok ⟨[sampleProduct, sampleProduct2]⟩))
      2 4).2.1⟩

/-- C10 (counterexample): an empty `minPrice` query value is non-numeric
(`parseFloat` yields `NaN`), yet the page ignores it — the empty string is
falsy, so the price filter is skipped and the result set is the full list,
not the empty set. -/
theorem emptyMinPrice_skipped_counterexample :
    parseFloat "" = JSNum.nan ∧
    productsPageFilter
      { category := none, search := none, minPrice := some "",
        maxPrice := none } [sampleProduct] = [sampleProduct] := by
  refine ⟨by decide, by decide⟩

/-- C10 (amended): for every non-empty `minPrice` or `maxPrice` query
value that `parseFloat` cannot parse (NaN), every price comparison against
NaN is false, so the catalog page yields the empty result set; only the
empty string is skipped as falsy. -/
theorem nanPriceFilter_yields_empty (ps : SearchParams)
    (xs : List Product) :
    (∀ m : String, ps.minPrice = some m → m.isEmpty = false →
      parseFloat m = JSNum.nan → productsPageFilter ps xs = []) ∧
    (∀ m : String, ps.maxPrice = some m → m.isEmpty = false →
      parseFloat m = JSNum.nan → productsPageFilter ps xs = []) := by
  constructor
  · intro m hmin hne hnan
    have hstep : filterStep ps.minPrice minPricePred
        (filterStep ps.search searchPred
          (filterStep ps.category categoryPred xs)) = [] := by
      rw [hmin]
      simp only [filterStep, hne, Bool.false_eq_true, if_false]
      have : ∀ p : Product, minPricePred m p = false := by
        intro p
        simp [minPricePred, hnan, jsGe]
      simp [List.filter_eq_nil_iff, this]
    unfold productsPageFilter
    rw [hstep, filterStep_nil]
  · intro m hmax hne hnan
    have : ∀ p : Product, maxPricePred m p = false := by
      intro p
      simp [maxPricePred, hnan, jsLe]
    unfold productsPageFilter
    rw [hmax]
    simp only [filterStep, hne, Bool.false_eq_true, if_false]
    simp [List.filter_eq_nil_iff, this]

/-- C10 (witness): a concrete malformed `minPrice` empties the result. -/
theorem nanPriceFilter_yields_empty_witness :
    productsPageFilter
      { category := none, search := none, minPrice := some "abc",
        maxPrice := none } [sampleProduct, sampleProduct2] = [] :=
  (nanPriceFilter_yields_empty
    { category := none, search := none, minPrice := some "abc",
      maxPrice := none } [sampleProduct, sampleProduct2]).1
    "abc" rfl (by decide) (by decide)

